import Mathlib

/-!
Verification of the `Stage` embedding component (src/stage/index.js) of
react-pixi and of the reconciliation core it drives.

The `Stage` React component is modelled by pure functions that return the
ordered list of observable side effects (`Ev`) each lifecycle method performs;
JS optional chaining is modelled with `Option`, JS exceptions with `Except`.
The reconciler (`PixiFiber`, imported by the component but not part of the
sources here) is modelled from the specification further below.
-/

/-- One observable side effect performed by a `Stage` lifecycle method, in
program order.  `commit b` is a `PixiFiber.updateContainer` call, with
`b = true` when the tree passed is `null` (the unmount commit) and `b = false`
when it is the current children. -/
inductive Ev : Type where
  | newApplication
  | tickerAutoStartOff
  | tickerStart
  | tickerStop
  | createContainer
  | commit (nullTree : Bool)
  | injectDevtools
  | onMount
  | onUnmount
  | addMediaListener
  | removeMediaListener
  | addWindowListener (name : String)
  | removeWindowListener (name : String)
  | setResolution (r : Nat)
  | interactionDestroy
  | interactionNew
  | resize (w h : Nat)
  | setCanvasStyle (w h : Nat)
  | renderStageCall
  | rendererRender
  | appDestroy
  deriving DecidableEq

/-- The JS errors the modelled code can throw. -/
inductive JsError : Type where
  | typeError
  deriving DecidableEq

/-- The name of the window event the stage listens to for render requests. -/
def requestRenderEvent : String := "__REACT_PIXI_REQUEST_RENDER__"

/-- The `options` prop object, restricted to the fields the `Stage` code
reads.  `oid` is an identity tag modelling JS object identity: the source
compares `prevProps.options !== options` by reference, which is modelled by
comparing `oid`. -/
structure PixiOptions : Type where
  oid : Nat
  width : Option Nat
  height : Option Nat
  autoDensity : Option Bool
  resolution : Option Nat
  deriving DecidableEq

/-- The `Stage` props the lifecycle methods read.  `onMount`, `onUnmount` and
`children` are opaque to the control flow and appear only as trace events. -/
structure Props : Type where
  width : Nat
  height : Nat
  raf : Bool
  renderOnComponentChange : Bool
  options : Option PixiOptions
  deriving DecidableEq

/-- `defaultProps` of the source: width 800, height 600, raf true,
renderOnComponentChange true, no options. -/
def defaultProps : Props :=
  { width := 800, height := 600, raf := true,
    renderOnComponentChange := true, options := none }

/-- `options?.autoDensity`. -/
def autoDensityOf (o : Option PixiOptions) : Option Bool :=
  o.bind PixiOptions.autoDensity

/-- `options?.resolution` as a JS value (`none` = `undefined`). -/
def resolutionOf (o : Option PixiOptions) : Option Nat :=
  o.bind PixiOptions.resolution

/-- `options?.resolution` filtered by JS truthiness: `undefined` and `0` are
falsy. -/
def truthyResolution (o : Option PixiOptions) : Option Nat :=
  match resolutionOf o with
  | some r => if r = 0 then none else some r
  | none => none

/-- `const hasAutoDensity = dens => dens !== false`. -/
def hasAutoDensity (dens : Option Bool) : Bool :=
  dens != some false

/-- JS reference comparison `prevProps.options !== options`, modelled through
the `oid` identity tags. -/
def optionsRefChanged (a b : Option PixiOptions) : Bool :=
  a.map PixiOptions.oid != b.map PixiOptions.oid

/-- Keys of the `propTypes` object of the `Stage` component, in source
order. -/
def propTypesKeys : List String :=
  ["width", "height", "onMount", "onUnmount", "raf",
   "renderOnComponentChange", "children", "options"]

/-- `getCanvasProps`: keeps exactly the entries of `props` whose key is
neither a `propTypes` key nor a display-object property key.
`displayObjectKeys` stands for `Object.keys(PROPS_DISPLAY_OBJECT)`;
Modelled from the spec: the file src/utils/props defining
`PROPS_DISPLAY_OBJECT` is not among the sources, so its key set is kept
abstract as a parameter. -/
def getCanvasProps {α : Type} (displayObjectKeys : List String)
    (props : List (String × α)) : List (String × α) :=
  let reserved := propTypesKeys ++ displayObjectKeys
  props.filter (fun kv => !(reserved.contains kv.1))

/-- The relevant fields of the object literal passed to `new Application`. -/
structure AppOptionsObj : Type where
  width : Option Nat
  height : Option Nat
  autoDensity : Option Bool
  resolution : Option Nat
  deriving DecidableEq

/-- A later spread entry overrides an earlier one when present. -/
def overrideField {α : Type} (base later : Option α) : Option α :=
  match later with
  | some v => some v
  | none => base

/-- The object literal `{ width, height, view: this._canvas, ...options,
autoDensity: false }` handed to `new Application` in `componentDidMount`:
props width/height first, then the spread of `options`, then a final
`autoDensity: false` entry that wins over everything before it. -/
def mkApplicationOptions (p : Props) : AppOptionsObj :=
  let base : AppOptionsObj :=
    { width := some p.width, height := some p.height,
      autoDensity := none, resolution := none }
  let withOpts : AppOptionsObj :=
    match p.options with
    | none => base
    | some o =>
      { width := overrideField base.width o.width,
        height := overrideField base.height o.height,
        autoDensity := overrideField base.autoDensity o.autoDensity,
        resolution := overrideField base.resolution o.resolution }
  { withOpts with autoDensity := some false }

/-- Body of the `renderStage` arrow method: it touches the renderer (one
`renderer.render(stage)` call) only when `!raf && renderOnComponentChange`. -/
def renderStage (raf renderOnComponentChange : Bool) : List Ev :=
  if !raf && renderOnComponentChange then [Ev.rendererRender] else []

/-- An invocation of `this.renderStage()`: the call itself is recorded as
`renderStageCall`, followed by whatever the body does. -/
def renderStageTrace (p : Props) : List Ev :=
  Ev.renderStageCall :: renderStage p.raf p.renderOnComponentChange

/-- Body of the `updateSize` arrow method. `dpr` models
`window.devicePixelRatio`. -/
def updateSize (dpr : Nat) (p : Props) : List Ev :=
  (if (truthyResolution p.options).isNone then
      [Ev.setResolution dpr, Ev.interactionDestroy, Ev.interactionNew]
    else []) ++
  [Ev.resize p.width p.height] ++
  (if hasAutoDensity (autoDensityOf p.options) then
      [Ev.setCanvasStyle p.width p.height]
    else [])

/-- Guard of the media-query registration in `componentDidMount`:
`hasAutoDensity(options?.autoDensity) && window.matchMedia &&
!options?.resolution`.  `mm` models availability of `window.matchMedia`. -/
def mediaCond (mm : Bool) (o : Option PixiOptions) : Bool :=
  hasAutoDensity (autoDensityOf o) && mm && (truthyResolution o).isNone

/-- Guard of the render-request listener registration:
`renderOnComponentChange && !raf`. -/
def renderListenerCond (p : Props) : Bool :=
  p.renderOnComponentChange && !p.raf

/-- `componentDidMount`, as the ordered list of effects it performs. -/
def componentDidMount (dpr : Nat) (mm : Bool) (p : Props) : List Ev :=
  [Ev.newApplication, Ev.tickerAutoStartOff,
   if p.raf then Ev.tickerStart else Ev.tickerStop,
   Ev.createContainer, Ev.commit false, Ev.injectDevtools, Ev.onMount] ++
  (if mediaCond mm p.options then [Ev.addMediaListener] else []) ++
  (if renderListenerCond p then [Ev.addWindowListener requestRenderEvent]
   else []) ++
  updateSize dpr p ++
  renderStageTrace p

/-- `componentWillUnmount`, as the ordered list of effects it performs.
`hasMediaQuery` records whether `this._mediaQuery` was set at mount. -/
def componentWillUnmount (p : Props) (hasMediaQuery : Bool) : List Ev :=
  [Ev.onUnmount, Ev.removeWindowListener requestRenderEvent,
   Ev.commit true] ++
  (if hasMediaQuery then [Ev.removeMediaListener] else []) ++
  renderStageTrace p ++
  [Ev.appDestroy]

/-- The resolution branch of `componentDidUpdate`:
`if (options?.resolution && prevProps?.options.resolution !==
options?.resolution)`.  The second operand reads `.resolution` off
`prevProps.options` without optional chaining, so it throws a `TypeError`
when the previous props carried no options object. -/
def resolutionStep (prev cur : Props) : Except JsError (List Ev) :=
  match truthyResolution cur.options with
  | none => Except.ok []
  | some r =>
    match prev.options with
    | none => Except.error JsError.typeError
    | some po =>
      if po.resolution != some r then
        Except.ok [Ev.setResolution r, Ev.interactionDestroy,
                   Ev.interactionNew]
      else Except.ok []

/-- Guard of the size update in `componentDidUpdate`. -/
def sizeCond (prev cur : Props) : Bool :=
  prev.height != cur.height || prev.width != cur.width ||
  resolutionOf prev.options != resolutionOf cur.options

/-- Guard of the trailing `renderStage()` call in `componentDidUpdate`. -/
def renderCond (prev cur : Props) : Bool :=
  prev.width != cur.width || prev.height != cur.height ||
  prev.raf != cur.raf ||
  prev.renderOnComponentChange != cur.renderOnComponentChange ||
  optionsRefChanged prev.options cur.options

/-- `componentDidUpdate`, as the ordered list of effects it performs, or the
JS error it throws. -/
def componentDidUpdate (dpr : Nat) (prev cur : Props) :
    Except JsError (List Ev) :=
  match resolutionStep prev cur with
  | Except.error e => Except.error e
  | Except.ok resEvs =>
    Except.ok (resEvs ++
      (if sizeCond prev cur then updateSize dpr cur else []) ++
      (if prev.raf != cur.raf then
          [if cur.raf then Ev.tickerStart else Ev.tickerStop]
        else []) ++
      [Ev.commit false] ++
      (if renderCond prev cur then renderStageTrace cur else []))

/-- `componentDidCatch(error, errorInfo)`: the three `console.error` lines it
emits, in order. -/
def componentDidCatch (error errorInfo : String) : List String :=
  ["Error occurred in `Stage`.", error, errorInfo]

/-- Number of occurrences of an event in a trace. -/
def occurrences (e : Ev) : List Ev → Nat
  | [] => 0
  | x :: xs => (if x = e then 1 else 0) + occurrences e xs

/-- Index of the first occurrence of an event in a trace (length of the
trace when absent). -/
def firstIndex (e : Ev) : List Ev → Nat
  | [] => 0
  | x :: xs => if x = e then 0 else firstIndex e xs + 1

/-- Is this event a reconciler commit? -/
def isCommitEv : Ev → Bool
  | Ev.commit _ => true
  | _ => false

/-- The part of a trace strictly after its first commit event. -/
def afterFirstCommit : List Ev → List Ev
  | [] => []
  | e :: rest => if isCommitEv e then rest else afterFirstCommit rest

/-- Number of commit events in a trace. -/
def countCommits : List Ev → Nat
  | [] => 0
  | e :: rest => (if isCommitEv e then 1 else 0) + countCommits rest

/-- Number of `renderStage` invocations recorded after the first commit of a
trace. -/
def redrawsAfterCommit (t : List Ev) : Nat :=
  occurrences Ev.renderStageCall (afterFirstCommit t)

/-!
The reconciliation core.  Modelled from the spec: the `PixiFiber` diff and
commit engine (src/reconciler, absent from the sources) — descriptor nodes,
host instances, and the per-subtree algorithm of the Diff & Commit Engine:
create when the old node is absent, delete when the new one is absent,
delete-then-create on a kind mismatch, and otherwise update in place with
children matched by `key` when present and strictly by index when not.
Property values are drawn from an opaque countable type (`Nat`) compared by
the declared per-property equality.
-/

/-- Modelled from the spec: a Descriptor Node — `kind`, optional `key`,
`props` and an ordered list of children. -/
inductive DNode : Type where
  | mk (kind : String) (key : Option String) (props : List (String × Nat))
       (children : List DNode)

/-- Modelled from the spec: a Host Instance — `kind`, the `key` it was
created under, its `committedProps` snapshot and its ordered children. -/
inductive HInst : Type where
  | mk (kind : String) (key : Option String)
       (committedProps : List (String × Nat)) (children : List HInst)

def DNode.kind : DNode → String
  | DNode.mk k _ _ _ => k

def DNode.key : DNode → Option String
  | DNode.mk _ key _ _ => key

def DNode.props : DNode → List (String × Nat)
  | DNode.mk _ _ ps _ => ps

def DNode.children : DNode → List DNode
  | DNode.mk _ _ _ cs => cs

def HInst.kind : HInst → String
  | HInst.mk k _ _ _ => k

def HInst.key : HInst → Option String
  | HInst.mk _ key _ _ => key

def HInst.committedProps : HInst → List (String × Nat)
  | HInst.mk _ _ ps _ => ps

def HInst.children : HInst → List HInst
  | HInst.mk _ _ _ cs => cs

/-- First old child carrying the given key. -/
def findByKey (k : String) : List HInst → Option HInst
  | [] => none
  | h :: hs => if h.key = some k then some h else findByKey k hs

/-- Modelled from the spec: the old child a new child at position `i` is
matched with — by `key` when the new child has one (greedily, in new-tree
order), strictly by index otherwise. -/
def matchOld (olds : List HInst) (i : Nat) (n : DNode) : Option HInst :=
  match n.key with
  | some k => findByKey k olds
  | none => olds[i]?

mutual

/-- Modelled from the spec: reconcile one position.  With no old instance,
or an old instance of a different `kind`, the new descriptor is created from
scratch (children built against an empty old list); with a matching `kind`
the instance is updated in place: `committedProps` becomes the new `props`
(differing keys applied, removed keys reset) and the children are reconciled
pairwise through `matchOld`. -/
def reconcile (old : Option HInst) : DNode → HInst
  | DNode.mk k key ps cs =>
    match old with
    | some o =>
      if o.kind = k then
        HInst.mk k key ps (reconcileChildren o.children 0 cs)
      else HInst.mk k key ps (reconcileChildren [] 0 cs)
    | none => HInst.mk k key ps (reconcileChildren [] 0 cs)
  termination_by n => sizeOf n

/-- Modelled from the spec: reconcile a list of new children, in order,
against the old children list. -/
def reconcileChildren (olds : List HInst) (i : Nat) : List DNode → List HInst
  | [] => []
  | n :: ns => reconcile (matchOld olds i n) n ::
      reconcileChildren olds (i + 1) ns
  termination_by ns => sizeOf ns

end

/-- Modelled from the spec: one commit for a Root Handle — `old` is the host
tree left by the previous commit (absent on mount), `new` the most recently
supplied descriptor tree (absent on unmount); the result is the host tree
after the commit completes. -/
def commit (old : Option HInst) (new : Option DNode) : Option HInst :=
  match new with
  | none => none
  | some n => some (reconcile old n)

mutual

/-- Structural correspondence between a host tree and a descriptor tree:
same kind, committed props equal to the descriptor props, and children in
the same order matching position-wise. -/
def hostMatches : HInst → DNode → Bool
  | HInst.mk hk _ hps hcs, DNode.mk dk _ dps dcs =>
    decide (hk = dk) && decide (hps = dps) && hostMatchesChildren hcs dcs
  termination_by _ d => sizeOf d

/-- Position-wise correspondence of children lists (in particular, equal
length). -/
def hostMatchesChildren : List HInst → List DNode → Bool
  | [], [] => true
  | h :: hs, d :: ds => hostMatches h d && hostMatchesChildren hs ds
  | _, _ => false
  termination_by _ ds => sizeOf ds

end

/-- After a commit, the host tree is absent exactly when the new descriptor
tree was absent, and otherwise corresponds to it node for node. -/
def commitConsistent (old : Option HInst) (new : Option DNode) : Bool :=
  match new, commit old new with
  | none, none => true
  | some n, some h => hostMatches h n
  | _, _ => false

theorem occurrences_append (e : Ev) (l1 l2 : List Ev) :
    occurrences e (l1 ++ l2) = occurrences e l1 + occurrences e l2 := by
  induction l1 with
  | nil => simp [occurrences]
  | cons x xs ih => simp [occurrences, ih]; omega

theorem reconcileChildren_matches (f : Nat)
    (ih : ∀ n : DNode, sizeOf n ≤ f → ∀ old,
      hostMatches (reconcile old n) n = true) :
    ∀ cs : List DNode, sizeOf cs ≤ f + 1 → ∀ olds i,
      hostMatchesChildren (reconcileChildren olds i cs) cs = true := by
  intro cs
  induction cs with
  | nil => intro _ olds i; simp [reconcileChildren, hostMatchesChildren]
  | cons c cs2 ihl =>
    intro hsz olds i
    rw [List.cons.sizeOf_spec] at hsz
    have hc : sizeOf c ≤ f := by omega
    have hcs2 : sizeOf cs2 ≤ f + 1 := by omega
    simp [reconcileChildren, hostMatchesChildren, ih c hc, ihl hcs2]

theorem reconcile_matches_fuel :
    ∀ (f : Nat) (n : DNode), sizeOf n ≤ f → ∀ old,
      hostMatches (reconcile old n) n = true := by
  intro f
  induction f with
  | zero =>
    intro n hn
    cases n with
    | mk k key ps cs => rw [DNode.mk.sizeOf_spec] at hn; omega
  | succ f ih =>
    intro n hn old
    cases n with
    | mk k key ps cs =>
      rw [DNode.mk.sizeOf_spec] at hn
      have hcs : sizeOf cs ≤ f + 1 := by omega
      have hch := reconcileChildren_matches f ih cs hcs
      cases old with
      | none => simp [reconcile, hostMatches, hch]
      | some o =>
        by_cases hk : o.kind = k
        · simp [reconcile, hk, hostMatches, hch]
        · simp [reconcile, hk, hostMatches, hch]

/-- Claim C1: for every Root Handle and every completed commit, the Host
Instance tree is structurally isomorphic to the most recently supplied
Descriptor Node tree — same shape, same child order, same kind at each
position — and every Host Instance's `committedProps` equals the
corresponding Descriptor Node's `props` under the declared per-property
equality (`hostMatches` checks exactly these conditions node for node). -/
theorem commit_tree_correspondence :
    ∀ (old : Option HInst) (new : Option DNode),
      commitConsistent old new = true := by
  intro old new
  cases new with
  | none => simp [commitConsistent, commit]
  | some n =>
    have h := reconcile_matches_fuel (sizeOf n) n (Nat.le_refl _) old
    simp [commitConsistent, commit, h]

/-- Claim C2: for every mounted stage, unmounting performs a synchronous
commit of an empty descriptor tree (`updateContainer(null, ...)`) strictly
before `app.destroy()`; the `onUnmount` callback, the removal of the window
render-request listener, the empty-tree commit, and `app.destroy()` each
happen exactly once and in that order. -/
theorem unmount_commit_before_destroy :
    ∀ (p : Props) (hasMediaQuery : Bool),
      occurrences Ev.onUnmount (componentWillUnmount p hasMediaQuery) = 1 ∧
      occurrences (Ev.removeWindowListener requestRenderEvent)
        (componentWillUnmount p hasMediaQuery) = 1 ∧
      occurrences (Ev.commit true) (componentWillUnmount p hasMediaQuery) = 1 ∧
      occurrences Ev.appDestroy (componentWillUnmount p hasMediaQuery) = 1 ∧
      firstIndex Ev.onUnmount (componentWillUnmount p hasMediaQuery) <
        firstIndex (Ev.removeWindowListener requestRenderEvent)
          (componentWillUnmount p hasMediaQuery) ∧
      firstIndex (Ev.removeWindowListener requestRenderEvent)
          (componentWillUnmount p hasMediaQuery) <
        firstIndex (Ev.commit true) (componentWillUnmount p hasMediaQuery) ∧
      firstIndex (Ev.commit true) (componentWillUnmount p hasMediaQuery) <
        firstIndex Ev.appDestroy (componentWillUnmount p hasMediaQuery) := by
  intro p hm
  obtain ⟨w, h, raf, roc, opts⟩ := p
  cases raf <;> cases roc <;> cases hm <;>
    simp [componentWillUnmount, renderStageTrace, renderStage, occurrences,
      firstIndex]

/-- Claim C4: on mount, exactly one root container is created (one
`PixiFiber.createContainer(this.app.stage)` call), the initial synchronous
commit of the children tree happens before `componentDidMount` returns and
after the container exists, and the `onMount` callback runs after that
initial commit. -/
theorem mount_creates_container_commits_then_onMount :
    ∀ (dpr : Nat) (mm : Bool) (p : Props),
      occurrences Ev.createContainer (componentDidMount dpr mm p) = 1 ∧
      occurrences (Ev.commit false) (componentDidMount dpr mm p) = 1 ∧
      occurrences Ev.onMount (componentDidMount dpr mm p) = 1 ∧
      firstIndex Ev.createContainer (componentDidMount dpr mm p) <
        firstIndex (Ev.commit false) (componentDidMount dpr mm p) ∧
      firstIndex (Ev.commit false) (componentDidMount dpr mm p) <
        firstIndex Ev.onMount (componentDidMount dpr mm p) := by
  intro dpr mm p
  obtain ⟨w, h, raf, roc, opts⟩ := p
  by_cases h1 : mediaCond mm opts <;>
  by_cases h2 : (truthyResolution opts).isNone <;>
  by_cases h3 : hasAutoDensity (autoDensityOf opts) <;>
  cases raf <;> cases roc <;>
    simp [componentDidMount, updateSize, renderStageTrace, renderStage,
      renderListenerCond, occurrences, firstIndex, h1, h2, h3]

/-- Claim C5: the window render-request listener (event
`__REACT_PIXI_REQUEST_RENDER__`) is registered during mount exactly when
`renderOnComponentChange` is true and `raf` is false, and is removed during
unmount. -/
theorem render_listener_mount_iff_unmount_removed :
    ∀ (dpr : Nat) (mm : Bool) (p : Props) (hasMediaQuery : Bool),
      (Ev.addWindowListener requestRenderEvent ∈ componentDidMount dpr mm p ↔
        p.renderOnComponentChange = true ∧ p.raf = false) ∧
      Ev.removeWindowListener requestRenderEvent ∈
        componentWillUnmount p hasMediaQuery := by
  intro dpr mm p hm
  obtain ⟨w, h, raf, roc, opts⟩ := p
  by_cases h1 : mediaCond mm opts <;>
  by_cases h2 : (truthyResolution opts).isNone <;>
  by_cases h3 : hasAutoDensity (autoDensityOf opts) <;>
  cases raf <;> cases roc <;> cases hm <;>
    simp [componentDidMount, componentWillUnmount, updateSize,
      renderStageTrace, renderStage, renderListenerCond, h1, h2, h3]

theorem countCommits_append (l1 l2 : List Ev) :
    countCommits (l1 ++ l2) = countCommits l1 + countCommits l2 := by
  induction l1 with
  | nil => simp [countCommits]
  | cons e l ih => simp [countCommits, ih]; omega

theorem afterFirstCommit_append (l1 l2 : List Ev)
    (h : countCommits l1 = 0) :
    afterFirstCommit (l1 ++ l2) = afterFirstCommit l2 := by
  induction l1 with
  | nil => simp [afterFirstCommit]
  | cons e l ih =>
    rw [countCommits] at h
    by_cases he : isCommitEv e = true
    · rw [if_pos he] at h; omega
    · rw [if_neg he] at h
      have h2 : countCommits l = 0 := by omega
      simp [afterFirstCommit, he, ih h2]

theorem countCommits_updateSize (dpr : Nat) (p : Props) :
    countCommits (updateSize dpr p) = 0 := by
  by_cases h2 : (truthyResolution p.options).isNone <;>
  by_cases h3 : hasAutoDensity (autoDensityOf p.options) <;>
    simp [updateSize, countCommits_append, countCommits, isCommitEv, h2, h3]

theorem countCommits_renderStageTrace (p : Props) :
    countCommits (renderStageTrace p) = 0 := by
  by_cases hb : (!p.raf && p.renderOnComponentChange) = true <;>
    simp [renderStageTrace, renderStage, countCommits, isCommitEv, hb]

theorem occurrences_renderStageTrace (p : Props) :
    occurrences Ev.renderStageCall (renderStageTrace p) = 1 := by
  by_cases hb : (!p.raf && p.renderOnComponentChange) = true <;>
    simp [renderStageTrace, renderStage, occurrences, hb]

theorem resolutionStep_ok_no_commit (prev cur : Props) (res : List Ev)
    (h : resolutionStep prev cur = Except.ok res) :
    countCommits res = 0 := by
  unfold resolutionStep at h
  split at h
  · simp only [Except.ok.injEq] at h
    subst h; simp [countCommits]
  · split at h
    · simp at h
    · split at h
      · simp only [Except.ok.injEq] at h
        subst h; simp [countCommits, isCommitEv]
      · simp only [Except.ok.injEq] at h
        subst h; simp [countCommits]

/-- Claim C3 (counterexample): an update in which only the children changed
(previous and new props identical, here the default props) completes its
commit (`updateContainer` runs, the trace is exactly one commit event) yet
emits no `renderStage` invocation afterwards — the redraw-request signal does
not fire after every commit. -/
theorem update_commit_without_redraw :
    componentDidUpdate 1 defaultProps defaultProps =
      Except.ok [Ev.commit false] ∧
    countCommits [Ev.commit false] = 1 ∧
    redrawsAfterCommit [Ev.commit false] = 0 := by
  refine ⟨rfl, rfl, rfl⟩

/-- Claim C3 (amended): the redraw-request signal (`renderStage`) fires
exactly once after the mount commit and after the unmount commit; after an
update commit it fires exactly once when `width`, `height`, `raf`,
`renderOnComponentChange` or the `options` object reference changed between
the previous and new props, and does not fire at all otherwise. -/
theorem redraw_request_after_commit :
    ∀ (dpr : Nat) (mm : Bool) (p : Props) (hm : Bool) (prev cur : Props),
      (countCommits (componentDidMount dpr mm p) = 1 ∧
        redrawsAfterCommit (componentDidMount dpr mm p) = 1) ∧
      (countCommits (componentWillUnmount p hm) = 1 ∧
        redrawsAfterCommit (componentWillUnmount p hm) = 1) ∧
      (∀ t, componentDidUpdate dpr prev cur = Except.ok t →
        countCommits t = 1 ∧
        redrawsAfterCommit t = if renderCond prev cur then 1 else 0) := by
  intro dpr mm p hm prev cur
  refine ⟨⟨?_, ?_⟩, ⟨?_, ?_⟩, ?_⟩
  · obtain ⟨w, h, raf, roc, opts⟩ := p
    by_cases h1 : mediaCond mm opts <;>
    by_cases h2 : (truthyResolution opts).isNone <;>
    by_cases h3 : hasAutoDensity (autoDensityOf opts) <;>
    cases raf <;> cases roc <;>
      simp [componentDidMount, updateSize, renderStageTrace, renderStage,
        renderListenerCond, countCommits, isCommitEv, h1, h2, h3]
  · obtain ⟨w, h, raf, roc, opts⟩ := p
    by_cases h1 : mediaCond mm opts <;>
    by_cases h2 : (truthyResolution opts).isNone <;>
    by_cases h3 : hasAutoDensity (autoDensityOf opts) <;>
    cases raf <;> cases roc <;>
      simp [componentDidMount, updateSize, renderStageTrace, renderStage,
        renderListenerCond, redrawsAfterCommit, afterFirstCommit, occurrences,
        isCommitEv, h1, h2, h3]
  · obtain ⟨w, h, raf, roc, opts⟩ := p
    cases raf <;> cases roc <;> cases hm <;>
      simp [componentWillUnmount, renderStageTrace, renderStage, countCommits,
        isCommitEv]
  · obtain ⟨w, h, raf, roc, opts⟩ := p
    cases raf <;> cases roc <;> cases hm <;>
      simp [componentWillUnmount, renderStageTrace, renderStage,
        redrawsAfterCommit, afterFirstCommit, occurrences, isCommitEv]
  · intro t ht
    cases hres : resolutionStep prev cur with
    | error e => rw [componentDidUpdate, hres] at ht; simp at ht
    | ok res =>
      rw [componentDidUpdate, hres] at ht
      simp only [Except.ok.injEq] at ht
      subst ht
      have hres0 : countCommits res = 0 :=
        resolutionStep_ok_no_commit prev cur res hres
      have hsz0 : countCommits
          (if sizeCond prev cur then updateSize dpr cur else []) = 0 := by
        by_cases hsz : sizeCond prev cur = true <;>
          simp [hsz, countCommits_updateSize, countCommits]
      have htick : countCommits
          [if cur.raf = true then Ev.tickerStart else Ev.tickerStop] = 0 := by
        by_cases hc2 : cur.raf = true <;>
          simp [hc2, countCommits, isCommitEv]
      have hY : countCommits
          (if (prev.raf != cur.raf) = true then
            [if cur.raf = true then Ev.tickerStart else Ev.tickerStop]
          else []) = 0 := by
        by_cases hb : (prev.raf != cur.raf) = true <;>
          simp [hb, htick, countCommits]
      have hrend : countCommits
            (if renderCond prev cur then renderStageTrace cur else []) = 0 ∧
          occurrences Ev.renderStageCall
            (if renderCond prev cur then renderStageTrace cur else []) =
            (if renderCond prev cur then 1 else 0) := by
        by_cases hrc : renderCond prev cur = true <;>
          simp [hrc, countCommits_renderStageTrace,
            occurrences_renderStageTrace, countCommits, occurrences]
      constructor
      · rw [countCommits_append, countCommits_append, countCommits_append,
          countCommits_append, hres0, hsz0, hY, hrend.1]
        simp [countCommits, isCommitEv]
      · rw [redrawsAfterCommit, List.append_assoc, List.append_assoc,
          List.append_assoc, afterFirstCommit_append _ _ hres0,
          afterFirstCommit_append _ _ hsz0, afterFirstCommit_append _ _ hY]
        simp [afterFirstCommit, isCommitEv, hrend.2]

/-- Witness for the amended redraw theorem at concrete inputs:
devicePixelRatio 1, matchMedia available, default props everywhere; the
update leg is instantiated on the trace an update with unchanged props
produces. -/
theorem redraw_request_after_commit_witness :
    (countCommits (componentDidMount 1 true defaultProps) = 1 ∧
      redrawsAfterCommit (componentDidMount 1 true defaultProps) = 1) ∧
    countCommits [Ev.commit false] = 1 ∧
    redrawsAfterCommit [Ev.commit false] =
      (if renderCond defaultProps defaultProps then 1 else 0) := by
  have h := redraw_request_after_commit 1 true defaultProps false
    defaultProps defaultProps
  exact ⟨h.1, (h.2.2 [Ev.commit false] rfl).1, (h.2.2 [Ev.commit false] rfl).2⟩

/-- Claim C6 (code-bug evidence): when the previous props had no `options`
object and the new props set `options.resolution`, `componentDidUpdate`
throws a `TypeError` — the guard reads `prevProps?.options.resolution`,
chaining on the wrong link (`prevProps` is never nullish there while
`prevProps.options` may be), so it crashes instead of setting
`renderer.resolution` and recreating the interaction manager.  The size
comparison four lines later spells the same access correctly as
`prevProps.options?.resolution`. -/
theorem resolution_change_throws_without_prev_options :
    componentDidUpdate 1 defaultProps
      { width := 800, height := 600, raf := true,
        renderOnComponentChange := true,
        options := some { oid := 1, width := none, height := none,
                          autoDensity := none, resolution := some 2 } } =
      Except.error JsError.typeError := rfl

/-- Claim C7: every error caught by `componentDidCatch` is surfaced through
the console diagnostic channel — the emitted console lines contain both the
error and its accompanying info; no caught error is silently dropped. -/
theorem componentDidCatch_logs_error_and_info :
    ∀ (error errorInfo : String),
      error ∈ componentDidCatch error errorInfo ∧
      errorInfo ∈ componentDidCatch error errorInfo := by
  intro e i
  simp [componentDidCatch]

/-- Claim C8: `getCanvasProps` returns exactly the entries of the props
object whose keys appear neither among the `propTypes` keys nor among the
display-object property keys, each with its value unchanged; no reserved key
is ever forwarded to the canvas element. -/
theorem getCanvasProps_keeps_exactly_unreserved :
    ∀ (α : Type) (displayObjectKeys : List String)
      (props : List (String × α)) (k : String) (v : α),
      ((k, v) ∈ getCanvasProps displayObjectKeys props ↔
        (k, v) ∈ props ∧ k ∉ propTypesKeys ∧ k ∉ displayObjectKeys) := by
  intro α dok props k v
  simp [getCanvasProps, List.mem_filter]

/-- Claim C9: the `Application` is always constructed with `autoDensity`
forced to `false`, overriding any value supplied in `options`; yet
`updateSize` applies CSS pixel sizing (`style.width`/`style.height` set from
the `width`/`height` props) exactly unless `options.autoDensity` is
explicitly `false` — in particular also when it is absent
(`hasAutoDensity none = true`). -/
theorem autoDensity_forced_false_css_sizing_on_by_default :
    ∀ (p : Props) (dpr : Nat),
      (mkApplicationOptions p).autoDensity = some false ∧
      (Ev.setCanvasStyle p.width p.height ∈ updateSize dpr p ↔
        autoDensityOf p.options ≠ some false) ∧
      hasAutoDensity none = true := by
  intro p dpr
  refine ⟨?_, ?_, rfl⟩
  · cases hpo : p.options <;> simp [mkApplicationOptions, hpo]
  · by_cases h3 : autoDensityOf p.options = some false <;>
    by_cases h2 : (truthyResolution p.options).isNone <;>
      simp [updateSize, hasAutoDensity, bne_iff_ne, h2, h3]

/-- Claim C10: `renderStage` leaves the renderer untouched — no render call,
no other effect — unless `raf` is false and `renderOnComponentChange` is
true (where its one effect is the `renderer.render` call); under the default
props (`raf = true`) every invocation is a no-op. -/
theorem renderStage_noop_unless_configured :
    ∀ (raf roc : Bool),
      (renderStage raf roc = [] ∨
        (raf = false ∧ roc = true ∧
          renderStage raf roc = [Ev.rendererRender])) ∧
      defaultProps.raf = true ∧
      renderStage defaultProps.raf roc = [] := by
  intro raf roc
  cases raf <;> cases roc <;> simp [renderStage, defaultProps]
